import Mathlib

/-!
Verification of the FFI-based X11 connection layer (`src/xcb_ffi.rs`).

The Rust source is shallowly embedded: pure computations become Lean
functions, the mutable pending-error state becomes explicit state passing
on `PendingErrorsInner`, calls into libxcb (the transport) become explicit
parameters describing what the transport returned, machine integers become
`Nat`/`Int` with explicit `% 2^w` where overflow matters, and `assert!`
and `unreachable!` become `Option`, with `none` marking a would-be panic.
Code of the repository that is not part of `src/xcb_ffi.rs` (the generated
`Setup` decoder, `GenericError`/`GenericEvent` conversions, the error
enums) is modelled from the specification; every such definition carries a
doc comment starting with "Modelled from the spec:".
-/

/-- Sequence numbers are widened to 64 bit internally; modelled as `Nat`. -/
abbrev SequenceNumber := Nat

/-- A byte region handed over by the transport; modelled as a list of bytes. -/
abbrev Buffer := List Nat

/-- Modelled from the spec: the parse-failure taxonomy of
"ParseError{buffer too short, declared length inconsistent with data
present, numeric conversion overflow}", collapsed to the two shapes this
layer produces (the exact `errors.rs` enum is not part of `src/`). -/
inductive ParseError
  | insufficientData
  | invalidValue
deriving DecidableEq

/-- The connection-error taxonomy, mirroring `ConnectionError` as used by
`connection_error_from_c_error` (spec section 7). -/
inductive ConnectionError
  | connectionError
  | unsupportedExtension
  | insufficientMemory
  | maximumRequestLengthExceeded
  | displayParsingError
  | invalidScreen
  | fdPassingFailed
  | unknownError
deriving DecidableEq

/-- Modelled from the spec: a protocol ("X11") error value, a typed view on
a 32-byte buffer (`GenericError` lives in `x11_utils`, not in `src/`). -/
structure GenericError where
  bytes : List Nat
deriving DecidableEq

/-- Modelled from the spec: an event value, a typed view on a 32-byte
buffer (`GenericEvent` lives in `x11_utils`, not in `src/`). -/
structure GenericEvent where
  bytes : List Nat
deriving DecidableEq

/-- Modelled from the spec: "GenericError / GenericEvent: typed views over
a Buffer discriminated by a response-type tag byte; error buffers are
always exactly 32 bytes".  The error tag byte is 0. -/
def GenericError.tryFrom (b : Buffer) : Except ParseError GenericError :=
  if b.length = 32 then
    if b.getD 0 0 = 0 then .ok ⟨b⟩ else .error .invalidValue
  else .error .insufficientData

/-- Modelled from the spec: `GenericEvent` only checks the 32-byte envelope. -/
def GenericEvent.tryFrom (b : Buffer) : Except ParseError GenericEvent :=
  if b.length = 32 then .ok ⟨b⟩ else .error .insufficientData

/-- Modelled from the spec: converting a discovered error into an event for
delivery through the event stream reuses the same 32-byte envelope. -/
def GenericError.toEvent (e : GenericError) : GenericEvent := ⟨e.bytes⟩

/-- Modelled from the spec: the response-type discriminator tag byte. -/
def GenericEvent.responseType (e : GenericEvent) : Nat := e.bytes.getD 0 0

/-- `ConnectionErrorOrX11Error` from `errors.rs` (not in `src/`): either a
connection-level failure or a protocol error data value. -/
inductive ConnectionErrorOrX11Error
  | connectionError (e : ConnectionError)
  | x11Error (e : GenericError)
deriving DecidableEq

/-- Modelled from the spec: lifting a parse failure of a transport-provided
buffer into the connection-error taxonomy uses its unknown/unrecognized
class (the `From` impl lives in `errors.rs`, not in `src/`). -/
def ParseError.toConnectionError (_ : ParseError) : ConnectionError :=
  ConnectionError.unknownError

/-- `connection_error_from_c_error` (src lines 105-119): classify a libxcb
error code.  The function `assert_ne!(error, 0)`; the would-be panic is
modelled as `none`. -/
def connection_error_from_c_error (error : Int) : Option ConnectionError :=
  if error = 0 then none
  else some (
    if error = 1 then .connectionError
    else if error = 2 then .unsupportedExtension
    else if error = 3 then .insufficientMemory
    else if error = 4 then .maximumRequestLengthExceeded
    else if error = 5 then .displayParsingError
    else if error = 6 then .invalidScreen
    else if error = 7 then .fdPassingFailed
    else .unknownError)

/-- Tail of `send_request` (src lines 200-211): libxcb reported sequence
number `seqno`; on `seqno = 0` the connection state `code` is classified
via `connection_error_from_connection`. -/
def send_request_outcome (seqno : Nat) (code : Int) :
    Option (Except ConnectionError Nat) :=
  if seqno = 0 then (connection_error_from_c_error code).map Except.error
  else some (.ok seqno)

/-- `send_request` flag computation (src lines 184-195): RAW = 2 and
CHECKED = 1 always, REPLY_FDS = 8 when the reply carries file descriptors;
guarded by `assert!(has_reply || !reply_has_fds)` (`none` = panic). -/
def send_request_flags (has_reply reply_has_fds : Bool) : Option Nat :=
  if has_reply || !reply_has_fds then
    some ((2 ||| 1) ||| (if reply_has_fds then 8 else 0))
  else none

/-- Flags passed by `send_request_with_reply` (src line 277). -/
def send_request_with_reply_args : Bool × Bool := (true, false)

/-- Flags passed by `send_request_with_reply_with_fds` (src line 283). -/
def send_request_with_reply_with_fds_args : Bool × Bool := (true, true)

/-- Flags passed by `send_request_without_reply` (src line 287). -/
def send_request_without_reply_args : Bool × Bool := (false, false)

/-- The pending-error reconciler state (`PendingErrorsInner`, src lines
39-43): the binary min-heap of in-flight discarded sequence numbers is
modelled as an ascending sorted list, the discovered-error FIFO as a list
popped at the head and pushed at the tail. -/
structure PendingErrorsInner where
  in_flight : List SequenceNumber
  pending : List GenericError
deriving DecidableEq

/-- `BinaryHeap<Reverse<SequenceNumber>>::push`: insertion into the
ascending-sorted-list model of the min-heap. -/
def heapPush (s : SequenceNumber) : List SequenceNumber → List SequenceNumber
  | [] => [s]
  | x :: xs => if s ≤ x then s :: x :: xs else x :: heapPush s xs

/-- `PendingErrors::append_error` (src lines 52-54). -/
def PendingErrors.append_error (st : PendingErrorsInner) (e : GenericError) :
    PendingErrorsInner :=
  { st with pending := st.pending ++ [e] }

/-- `PendingErrors::discard_reply` (src lines 56-58). -/
def PendingErrors.discard_reply (st : PendingErrorsInner) (s : SequenceNumber) :
    PendingErrorsInner :=
  { st with in_flight := heapPush s st.in_flight }

/-- `DiscardMode` from `connection.rs`. -/
inductive DiscardMode
  | discardReplyAndError
  | discardReply
deriving DecidableEq

/-- `XCBConnection::discard_reply` (src lines 290-299).  The returned `Bool`
records whether the transport (`xcb_discard_reply64`) was called. -/
def discard_reply (st : PendingErrorsInner) (sequence : SequenceNumber)
    (mode : DiscardMode) : PendingErrorsInner × Bool :=
  match mode with
  | .discardReplyAndError => (st, true)
  | .discardReply => (PendingErrors.discard_reply st sequence, false)

/-- The result of `XCBConnection::poll_for_reply` for one sequence number:
`Result<Option<Buffer>, ()>` (src lines 239-255).  The transport behaviour
is a parameter of the stateful operations. -/
abbrev PollReply := SequenceNumber → Except Unit (Option Buffer)

/-- The scanning loop of `PendingErrors::get` (src lines 70-93) over the
in-flight heap, returning the new heap contents and the discovered error,
if any. -/
def getScan (poll : PollReply) : List SequenceNumber →
    List SequenceNumber × Option GenericError
  | [] => ([], none)
  | s :: rest =>
    match poll s with
    | .error _ => (s :: rest, none)
    | .ok result =>
      match result with
      | none => getScan poll rest
      | some buf =>
        match GenericError.tryFrom buf with
        | .ok e => (rest, some e)
        | .error _ => getScan poll rest

/-- `PendingErrors::get` (src lines 60-96): pop the FIFO if possible, else
scan the in-flight heap. -/
def PendingErrors.get (poll : PollReply) (st : PendingErrorsInner) :
    PendingErrorsInner × Option GenericError :=
  match st.pending with
  | e :: es => (⟨st.in_flight, es⟩, some e)
  | [] =>
    let r := getScan poll st.in_flight
    (⟨r.1, []⟩, r.2)

/-- Modelled from the spec (section 4.2): the outcome of the non-blocking
probe of one outstanding sequence, in the spec's vocabulary. -/
inductive SpecProbe
  | notYetAvailable
  | resolvedNoError
  | resolvedError (e : GenericError)

/-- Modelled from the spec: derive the spec's probe outcome from the
transport's `poll_for_reply` answer; a resolved buffer is an error exactly
when the tag-byte discrimination succeeds, otherwise it is a reply. -/
def specProbeOf (poll : PollReply) (s : SequenceNumber) : SpecProbe :=
  match poll s with
  | .error _ => .notYetAvailable
  | .ok none => .resolvedNoError
  | .ok (some buf) =>
    match GenericError.tryFrom buf with
    | .ok e => .resolvedError e
    | .error _ => .resolvedNoError

/-- The smallest element of a list of sequence numbers. -/
def listMin : List SequenceNumber → Option SequenceNumber
  | [] => none
  | x :: xs =>
    match listMin xs with
    | none => some x
    | some m => some (min x m)

/-- Modelled from the spec (section 4.2, step 2): repeatedly peek the
smallest outstanding discarded sequence number, probe it, stop on
"not yet available", drop and continue on a reply or nothing, and remove
and return on an error.  `fuel` bounds the repetition; it is instantiated
with the size of the outstanding set, which is enough to exhaust it since
every continuing step removes one element. -/
def specScan (probe : SequenceNumber → SpecProbe) :
    Nat → List SequenceNumber → List SequenceNumber × Option GenericError
  | 0, l => (l, none)
  | fuel + 1, l =>
    match listMin l with
    | none => (l, none)
    | some m =>
      match probe m with
      | .notYetAvailable => (l, none)
      | .resolvedNoError => specScan probe fuel (l.erase m)
      | .resolvedError e => (l.erase m, some e)

/-- Modelled from the spec (section 4.2): `get_next_pending_error` — pop
the discovered-errors FIFO if non-empty, otherwise scan the outstanding
set in ascending sequence order. -/
def specGetNextPendingError (probe : SequenceNumber → SpecProbe)
    (st : PendingErrorsInner) : PendingErrorsInner × Option GenericError :=
  match st.pending with
  | e :: es => (⟨st.in_flight, es⟩, some e)
  | [] =>
    let r := specScan probe st.in_flight.length st.in_flight
    (⟨r.1, []⟩, r.2)

/-- Ascending sortedness of the sorted-list model of the min-heap. -/
def sortedAsc : List SequenceNumber → Bool
  | [] => true
  | [_] => true
  | x :: y :: rest => x ≤ y && sortedAsc (y :: rest)

/-- `wrap_error` (src lines 268-270): an error region is viewed as exactly
32 bytes. -/
def wrap_error (b : Buffer) : Buffer := b.take 32

/-- `wrap_reply` (src lines 257-266): the true reply length is
`32 + length_field * 4` with the 32-bit length field at offset 4, native
(little) endian. -/
def wrap_reply (b : Buffer) : Buffer :=
  let lengthField :=
    b.getD 4 0 + 256 * b.getD 5 0 + 65536 * b.getD 6 0 + 16777216 * b.getD 7 0
  b.take (32 + lengthField * 4)

/-- `wait_for_reply_or_error` (src lines 305-325).  `reply` and `error` are
the two out-pointers filled by `xcb_wait_for_reply64` (`none` = NULL) and
`code` is what `xcb_connection_has_error` would report.  The outer `none`
models a panic: the `assert!(reply == null || error == null)`, or the
`assert_ne!` inside the classifier. -/
def wait_for_reply_or_error (reply error : Option Buffer) (code : Int) :
    Option (Except ConnectionErrorOrX11Error Buffer) :=
  if reply.isSome && error.isSome then none
  else
    match reply, error with
    | none, none =>
      (connection_error_from_c_error code).map
        (fun c => .error (.connectionError c))
    | some r, _ => some (.ok (wrap_reply r))
    | none, some e =>
      match GenericError.tryFrom (wrap_error e) with
      | .ok ge => some (.error (.x11Error ge))
      | .error pe => some (.error (.connectionError pe.toConnectionError))

/-- `wait_for_reply` (src lines 327-339): protocol errors are appended to
the pending-error queue and turned into `Ok(None)`. -/
def wait_for_reply (reply error : Option Buffer) (code : Int)
    (st : PendingErrorsInner) :
    PendingErrorsInner × Option (Except ConnectionError (Option Buffer)) :=
  match wait_for_reply_or_error reply error code with
  | none => (st, none)
  | some (.ok buffer) => (st, some (.ok (some buffer)))
  | some (.error (.connectionError e)) => (st, some (.error e))
  | some (.error (.x11Error e)) =>
    (PendingErrors.append_error st e, some (.ok none))

/-- `wait_for_event` (src lines 376-389).  `event` is what
`xcb_wait_for_event` returned (`none` = NULL), `code` the connection error
state consulted on NULL.  The outer `none` models the
`assert_ne!(35, response_type)` panic (or an unreachable classifier
assert). -/
def wait_for_event (poll : PollReply) (st : PendingErrorsInner)
    (event : Option Buffer) (code : Int) :
    PendingErrorsInner × Option (Except ConnectionError GenericEvent) :=
  match PendingErrors.get poll st with
  | (st2, some e) => (st2, some (.ok e.toEvent))
  | (st2, none) =>
    match event with
    | none => (st2, (connection_error_from_c_error code).map Except.error)
    | some buf =>
      match GenericEvent.tryFrom (buf.take 32) with
      | .error pe => (st2, some (.error pe.toConnectionError))
      | .ok ev =>
        if ev.responseType = 35 then (st2, none)
        else (st2, some (.ok ev))

/-- `poll_for_event` (src lines 391-409).  On a NULL event, a zero
connection-error code means "no event" (`Ok(None)`), a nonzero code is
classified and returned as an error. -/
def poll_for_event (poll : PollReply) (st : PendingErrorsInner)
    (event : Option Buffer) (code : Int) :
    PendingErrorsInner × Option (Except ConnectionError (Option GenericEvent)) :=
  match PendingErrors.get poll st with
  | (st2, some e) => (st2, some (.ok (some e.toEvent)))
  | (st2, none) =>
    match event with
    | none =>
      if code = 0 then (st2, some (.ok none))
      else (st2, (connection_error_from_c_error code).map Except.error)
    | some buf =>
      match GenericEvent.tryFrom (buf.take 32) with
      | .error pe => (st2, some (.error pe.toConnectionError))
      | .ok ev =>
        if ev.responseType = 35 then (st2, none)
        else (st2, some (.ok (some ev)))

/-- The total-length computation of `parse_setup` (src line 160):
`let length = length * 4 + 8;` performed on `u16`, so modulo `2 ^ 16`
(release-mode wraparound semantics; debug builds panic on overflow). -/
def setup_total_length (length : Nat) : Nat := (length * 4 + 8) % 65536

/-- A byte-region decoder: from the input and the current position it
yields a value and the new position, or a parse failure.  Every read is
bounds-checked against the length of the input, so the decoder never
accesses a byte outside the region. -/
def ByteDecoder (α : Type) : Type :=
  List Nat → Nat → Except ParseError (α × Nat)

/-- Decoder returning a value without consuming input. -/
def dPure (a : α) : ByteDecoder α := fun _ pos => .ok (a, pos)

/-- Sequential composition of decoders. -/
def dBind (p : ByteDecoder α) (f : α → ByteDecoder β) : ByteDecoder β :=
  fun d pos =>
    match p d pos with
    | .error e => .error e
    | .ok (a, q) => f a d q

/-- Read one byte, checking bounds. -/
def readU8 : ByteDecoder Nat := fun d pos =>
  if pos < d.length then .ok (d.getD pos 0, pos + 1)
  else .error .insufficientData

/-- Skip `n` padding bytes, checking bounds. -/
def skipBytes (n : Nat) : ByteDecoder Unit := fun d pos =>
  if pos + n ≤ d.length then .ok ((), pos + n) else .error .insufficientData

/-- Run a decoder `n` times, collecting the results. -/
def repeatD (p : ByteDecoder α) : Nat → ByteDecoder (List α)
  | 0 => dPure []
  | k + 1 => dBind p (fun x => dBind (repeatD p k) (fun xs => dPure (x :: xs)))

/-- Read `n` raw bytes. -/
def readBytes (n : Nat) : ByteDecoder (List Nat) := repeatD readU8 n

/-- Read a 16-bit little/native-endian field. -/
def readU16 : ByteDecoder Nat :=
  dBind readU8 (fun a => dBind readU8 (fun b => dPure (a + 256 * b)))

/-- Read a 32-bit little/native-endian field. -/
def readU32 : ByteDecoder Nat :=
  dBind readU16 (fun a => dBind readU16 (fun b => dPure (a + 65536 * b)))

/-- Padding needed to round `n` up to 4-byte alignment. -/
def pad4 (n : Nat) : Nat := (4 - n % 4) % 4

/-- Modelled from the spec: a pixmap-format record of the handshake
(8 bytes: depth, bits-per-pixel, scanline-pad, 5 pad). -/
structure Format where
  depth : Nat
  bits_per_pixel : Nat
  scanline_pad : Nat
deriving DecidableEq

/-- Modelled from the spec: a visual-type record of the handshake
(24 bytes: visual-id(4), class(1), bits-per-rgb(1), colormap-entries(2),
red/green/blue mask(4 each), 4 pad). -/
structure Visualtype where
  visual_id : Nat
  class_ : Nat
  bits_per_rgb_value : Nat
  colormap_entries : Nat
  red_mask : Nat
  green_mask : Nat
  blue_mask : Nat
deriving DecidableEq

/-- Modelled from the spec: a depth record (8-byte header followed by a
declared count of visual-type records). -/
structure Depth where
  depth : Nat
  visuals : List Visualtype
deriving DecidableEq

/-- Modelled from the spec: a screen-root record (40-byte header followed
by a declared count of depth records). -/
structure Screen where
  root : Nat
  default_colormap : Nat
  white_pixel : Nat
  black_pixel : Nat
  current_input_masks : Nat
  width_in_pixels : Nat
  height_in_pixels : Nat
  width_in_millimeters : Nat
  height_in_millimeters : Nat
  min_installed_maps : Nat
  max_installed_maps : Nat
  root_visual : Nat
  backing_stores : Nat
  save_unders : Nat
  root_depth : Nat
  allowed_depths : List Depth
deriving DecidableEq

/-- Modelled from the spec: the owned, fully-parsed handshake record. -/
structure Setup where
  status : Nat
  protocol_major_version : Nat
  protocol_minor_version : Nat
  length : Nat
  release_number : Nat
  resource_id_base : Nat
  resource_id_mask : Nat
  motion_buffer_size : Nat
  maximum_request_length : Nat
  image_byte_order : Nat
  bitmap_format_bit_order : Nat
  bitmap_format_scanline_unit : Nat
  bitmap_format_scanline_pad : Nat
  min_keycode : Nat
  max_keycode : Nat
  vendor : List Nat
  pixmap_formats : List Format
  roots : List Screen
deriving DecidableEq

/-- Modelled from the spec: decoder for one pixmap-format record. -/
def formatD : ByteDecoder Format :=
  dBind readU8 (fun depth =>
  dBind readU8 (fun bpp =>
  dBind readU8 (fun pad =>
  dBind (skipBytes 5) (fun _ =>
  dPure ⟨depth, bpp, pad⟩))))

/-- Modelled from the spec: decoder for one visual-type record. -/
def visualtypeD : ByteDecoder Visualtype :=
  dBind readU32 (fun vid =>
  dBind readU8 (fun cls =>
  dBind readU8 (fun bprgb =>
  dBind readU16 (fun cme =>
  dBind readU32 (fun red =>
  dBind readU32 (fun green =>
  dBind readU32 (fun blue =>
  dBind (skipBytes 4) (fun _ =>
  dPure ⟨vid, cls, bprgb, cme, red, green, blue⟩))))))))

/-- Modelled from the spec: decoder for one depth record; the visual-type
count is declared in the record header. -/
def depthD : ByteDecoder Depth :=
  dBind readU8 (fun depth =>
  dBind (skipBytes 1) (fun _ =>
  dBind readU16 (fun nVisuals =>
  dBind (skipBytes 4) (fun _ =>
  dBind (repeatD visualtypeD nVisuals) (fun visuals =>
  dPure ⟨depth, visuals⟩)))))

/-- Modelled from the spec: decoder for one screen-root record; the depth
count is declared in the record header. -/
def screenD : ByteDecoder Screen :=
  dBind readU32 (fun root =>
  dBind readU32 (fun cmap =>
  dBind readU32 (fun white =>
  dBind readU32 (fun black =>
  dBind readU32 (fun masks =>
  dBind readU16 (fun wpx =>
  dBind readU16 (fun hpx =>
  dBind readU16 (fun wmm =>
  dBind readU16 (fun hmm =>
  dBind readU16 (fun minMaps =>
  dBind readU16 (fun maxMaps =>
  dBind readU32 (fun rootVisual =>
  dBind readU8 (fun backing =>
  dBind readU8 (fun save =>
  dBind readU8 (fun rootDepth =>
  dBind readU8 (fun nDepths =>
  dBind (repeatD depthD nDepths) (fun depths =>
  dPure ⟨root, cmap, white, black, masks, wpx, hpx, wmm, hmm, minMaps,
         maxMaps, rootVisual, backing, save, rootDepth, depths⟩)))))))))))))))))

/-- Modelled from the spec (sections 4.4 and 6): the full handshake
decoder — fixed header fields, vendor string padded to 4-byte alignment,
then the declared counts of pixmap-format and screen-root records. -/
def setupD : ByteDecoder Setup :=
  dBind readU8 (fun status =>
  dBind (skipBytes 1) (fun _ =>
  dBind readU16 (fun major =>
  dBind readU16 (fun minor =>
  dBind readU16 (fun length =>
  dBind readU32 (fun release =>
  dBind readU32 (fun ridBase =>
  dBind readU32 (fun ridMask =>
  dBind readU32 (fun motion =>
  dBind readU16 (fun vendorLen =>
  dBind readU16 (fun maxReq =>
  dBind readU8 (fun nRoots =>
  dBind readU8 (fun nFormats =>
  dBind readU8 (fun imageOrder =>
  dBind readU8 (fun bitmapOrder =>
  dBind readU8 (fun slUnit =>
  dBind readU8 (fun slPad =>
  dBind readU8 (fun minKey =>
  dBind readU8 (fun maxKey =>
  dBind (skipBytes 4) (fun _ =>
  dBind (readBytes vendorLen) (fun vendor =>
  dBind (skipBytes (pad4 vendorLen)) (fun _ =>
  dBind (repeatD formatD nFormats) (fun formats =>
  dBind (repeatD screenD nRoots) (fun roots =>
  dPure ⟨status, major, minor, length, release, ridBase, ridMask, motion,
         maxReq, imageOrder, bitmapOrder, slUnit, slPad, minKey, maxKey,
         vendor, formats, roots⟩))))))))))))))))))))))))

/-- Run the handshake decoder from the start of a byte region, also
reporting how many bytes it consumed. -/
def setupRun (d : List Nat) : Except ParseError (Setup × Nat) := setupD d 0

/-- `Setup::try_from(&[u8])` as used by `parse_setup` (src line 163);
modelled from the spec, trailing bytes after the decoded structure are
ignored. -/
def setupTryFrom (d : List Nat) : Except ParseError Setup :=
  match setupRun d with
  | .ok (s, _) => .ok s
  | .error e => .error e

/-- `parse_setup` (src lines 149-166): read the 16-bit length field at
bytes 6..8 (native endian), compute the total length in `u16` arithmetic,
and decode that many bytes.  The first 8 bytes are guaranteed present by
libxcb ("We know that the setup information has at least eight bytes"). -/
def parse_setup (data : List Nat) : Except ParseError Setup :=
  let length := data.getD 6 0 + 256 * data.getD 7 0
  setupTryFrom (data.take (setup_total_length length))

/-- `true` exactly on a parse failure. -/
def isErr : Except ParseError α → Bool
  | .error _ => true
  | .ok _ => false

/-- Position monotonicity and in-bounds finish of a decoder. -/
def DAdvances (p : ByteDecoder α) : Prop :=
  ∀ d pos a q, p d pos = .ok (a, q) →
    pos ≤ q ∧ (pos ≤ d.length → q ≤ d.length)

/-- Success of a decoder is stable under truncations of the input that
keep at least every byte the decoder consumed. -/
def DStable (p : ByteDecoder α) : Prop :=
  ∀ d pos a q m, p d pos = .ok (a, q) → q ≤ m →
    p (d.take m) pos = .ok (a, q)

/-- Truncating the input strictly below the consumed end makes a decoder
fail with a parse error. -/
def DTruncFails (p : ByteDecoder α) : Prop :=
  ∀ d pos a q m, p d pos = .ok (a, q) → pos ≤ m → m < q →
    isErr (p (d.take m) pos) = true

/-- The three robustness properties bundled. -/
def DGood (p : ByteDecoder α) : Prop :=
  DAdvances p ∧ DStable p ∧ DTruncFails p

/-- `true` exactly when the outcome is a successfully wrapped reply buffer. -/
def isReplyOutcome : Option (Except ConnectionErrorOrX11Error Buffer) → Bool
  | some (.ok _) => true
  | _ => false

/-- `true` exactly when the outcome is a protocol (X11) error value. -/
def isX11ErrorOutcome : Option (Except ConnectionErrorOrX11Error Buffer) → Bool
  | some (.error (.x11Error _)) => true
  | _ => false

/-- `true` exactly when the outcome is a connection-level error. -/
def isConnErrorOutcome : Option (Except ConnectionErrorOrX11Error Buffer) → Bool
  | some (.error (.connectionError _)) => true
  | _ => false

/-- Exactly one of three booleans is set. -/
def exactlyOneOf3 (a b c : Bool) : Bool :=
  (a && !b && !c) || (!a && b && !c) || (!a && !b && c)

def minSetupBytes : List Nat :=
  [1, 0, 11, 0, 0, 0, 8, 0,
   0, 0, 0, 0, 0, 0, 0, 0, 0, 0, 0, 0, 0, 0, 0, 0,
   0, 0, 0, 1, 0, 0, 1, 1, 0, 0, 0, 255, 0, 0, 0, 0]

def minSetupValue : Setup :=
  ⟨1, 11, 0, 8, 0, 0, 0, 0, 256, 1, 1, 0, 0, 0, 255, [], [], []⟩

/-- The 128-byte handshake region built by the repository's own test
`default_setup` (src lines 635-708), little-endian. -/
def defaultSetupBytes : List Nat :=
  [1, 0, 11, 0, 0, 0, 32, 0, 120, 86, 52, 18, 0, 0, 0, 16, 255, 0, 0, 0,
   0, 0, 0, 0, 6, 0, 0, 1, 1, 1, 1, 1, 0, 0, 0, 255, 0, 0, 0, 0,
   86, 101, 110, 100, 111, 114, 32, 32, 15, 42, 21, 0, 0, 0, 0, 0,
   1, 0, 0, 0, 2, 0, 0, 0, 3, 0, 0, 0, 4, 0, 0, 0, 0, 0, 0, 0,
   0, 0, 0, 0, 0, 0, 0, 0, 0, 0, 0, 0, 0, 0, 0, 0, 0, 0, 0, 1,
   99, 0, 1, 0, 0, 0, 0, 0,
   80, 0, 0, 0, 2, 4, 81, 0, 82, 0, 0, 0, 83, 0, 0, 0, 84, 0, 0, 0,
   0, 0, 0, 0]

/-- The `Setup` the test `xcb_connect_and_setup` (src lines 710-748)
expects for `defaultSetupBytes`. -/
def defaultSetupValue : Setup :=
  ⟨1, 11, 0, 32, 305419896, 268435456, 255, 0, 256, 1, 1, 0, 0, 0, 255,
   [86, 101, 110, 100, 111, 114], [⟨15, 42, 21⟩],
   [⟨1, 2, 3, 4, 0, 0, 0, 0, 0, 0, 0, 0, 0, 0, 0,
     [⟨99, [⟨80, 2, 4, 81, 82, 83, 84⟩]⟩]⟩]⟩

/-- A transport in which sequence 2 resolved to an error and every other
sequence resolved to a reply (tag byte 1), for the concrete scenario of
spec section 8. -/
def pollScenario : PollReply := fun s =>
  if s = 2 then .ok (some (List.replicate 32 0))
  else .ok (some (1 :: List.replicate 31 0))

def pollNotYet : PollReply := fun _ => .error ()

def errAllZero : GenericError := ⟨List.replicate 32 0⟩

deriving instance DecidableEq for Except

lemma getD_take_of_lt (d : List Nat) (m i : Nat) (h : i < m) :
    (d.take m).getD i 0 = d.getD i 0 := by
  simp [List.getD_eq_getElem?_getD, List.getElem?_take, h]

lemma dgood_pure (a : α) : DGood (dPure a) := by
  refine ⟨?_, ?_, ?_⟩
  · intro d pos b q h
    simp only [dPure, Except.ok.injEq, Prod.mk.injEq] at h
    omega
  · intro d pos b q m h hm
    simpa [dPure] using h
  · intro d pos b q m h hpos hm
    simp only [dPure, Except.ok.injEq, Prod.mk.injEq] at h
    omega

lemma dgood_readU8 : DGood readU8 := by
  refine ⟨?_, ?_, ?_⟩
  · intro d pos a q h
    unfold readU8 at h
    by_cases hp : pos < d.length
    · rw [if_pos hp] at h
      simp only [Except.ok.injEq, Prod.mk.injEq] at h
      omega
    · rw [if_neg hp] at h
      exact absurd h (by simp)
  · intro d pos a q m h hm
    unfold readU8 at h ⊢
    by_cases hp : pos < d.length
    · rw [if_pos hp] at h
      simp only [Except.ok.injEq, Prod.mk.injEq] at h
      obtain ⟨ha, hq⟩ := h
      have hpm : pos < m := by omega
      have hlen : pos < (d.take m).length := by
        rw [List.length_take]; omega
      rw [if_pos hlen, getD_take_of_lt d m pos hpm, ha, hq]
    · rw [if_neg hp] at h
      exact absurd h (by simp)
  · intro d pos a q m h hpos hm
    unfold readU8 at h
    by_cases hp : pos < d.length
    · rw [if_pos hp] at h
      simp only [Except.ok.injEq, Prod.mk.injEq] at h
      have hlen : ¬ pos < (d.take m).length := by
        rw [List.length_take]; omega
      unfold readU8
      rw [if_neg hlen]
      simp [isErr]
    · rw [if_neg hp] at h
      exact absurd h (by simp)

lemma dgood_skipBytes (n : Nat) : DGood (skipBytes n) := by
  refine ⟨?_, ?_, ?_⟩
  · intro d pos a q h
    unfold skipBytes at h
    by_cases hp : pos + n ≤ d.length
    · rw [if_pos hp] at h
      simp only [Except.ok.injEq, Prod.mk.injEq] at h
      omega
    · rw [if_neg hp] at h
      exact absurd h (by simp)
  · intro d pos a q m h hm
    unfold skipBytes at h ⊢
    by_cases hp : pos + n ≤ d.length
    · rw [if_pos hp] at h
      simp only [Except.ok.injEq, Prod.mk.injEq] at h
      have hlen : pos + n ≤ (d.take m).length := by
        rw [List.length_take]; omega
      rw [if_pos hlen, h.2]
    · rw [if_neg hp] at h
      exact absurd h (by simp)
  · intro d pos a q m h hpos hm
    unfold skipBytes at h
    by_cases hp : pos + n ≤ d.length
    · rw [if_pos hp] at h
      simp only [Except.ok.injEq, Prod.mk.injEq] at h
      have hlen : ¬ pos + n ≤ (d.take m).length := by
        rw [List.length_take]; omega
      unfold skipBytes
      rw [if_neg hlen]
      simp [isErr]
    · rw [if_neg hp] at h
      exact absurd h (by simp)

lemma dgood_bind {p : ByteDecoder α} {f : α → ByteDecoder β}
    (hp : DGood p) (hf : ∀ a, DGood (f a)) : DGood (dBind p f) := by
  obtain ⟨hpa, hps, hpt⟩ := hp
  refine ⟨?_, ?_, ?_⟩
  · intro d pos b q h
    unfold dBind at h
    cases hrun : p d pos with
    | error e => rw [hrun] at h; exact absurd h (by simp)
    | ok v =>
      obtain ⟨a, p1⟩ := v
      rw [hrun] at h
      simp only at h
      obtain ⟨h1, h2⟩ := hpa d pos a p1 hrun
      obtain ⟨h3, h4⟩ := (hf a).1 d p1 b q h
      exact ⟨le_trans h1 h3, fun hle => h4 (h2 hle)⟩
  · intro d pos b q m h hm
    unfold dBind at h ⊢
    cases hrun : p d pos with
    | error e => rw [hrun] at h; exact absurd h (by simp)
    | ok v =>
      obtain ⟨a, p1⟩ := v
      rw [hrun] at h
      simp only at h
      have hp1q : p1 ≤ q := ((hf a).1 d p1 b q h).1
      rw [hps d pos a p1 m hrun (le_trans hp1q hm)]
      simp only
      exact (hf a).2.1 d p1 b q m h hm
  · intro d pos b q m h hpos hm
    unfold dBind at h ⊢
    cases hrun : p d pos with
    | error e => rw [hrun] at h; exact absurd h (by simp)
    | ok v =>
      obtain ⟨a, p1⟩ := v
      rw [hrun] at h
      simp only at h
      by_cases hmp : m < p1
      · have hfail := hpt d pos a p1 m hrun hpos hmp
        cases hrun2 : p (d.take m) pos with
        | error e2 => simp [isErr]
        | ok v2 =>
          rw [hrun2] at hfail
          simp [isErr] at hfail
      · push_neg at hmp
        rw [hps d pos a p1 m hrun hmp]
        simp only
        exact (hf a).2.2 d p1 b q m h hmp hm

lemma dgood_repeatD {p : ByteDecoder α} (hp : DGood p) :
    ∀ n, DGood (repeatD p n)
  | 0 => dgood_pure []
  | k + 1 =>
    dgood_bind hp (fun x =>
      dgood_bind (dgood_repeatD hp k) (fun xs => dgood_pure (x :: xs)))

lemma dgood_readBytes (n : Nat) : DGood (readBytes n) :=
  dgood_repeatD dgood_readU8 n

lemma dgood_readU16 : DGood readU16 :=
  dgood_bind dgood_readU8 (fun a =>
    dgood_bind dgood_readU8 (fun b => dgood_pure (a + 256 * b)))

lemma dgood_readU32 : DGood readU32 :=
  dgood_bind dgood_readU16 (fun a =>
    dgood_bind dgood_readU16 (fun b => dgood_pure (a + 65536 * b)))

lemma dgood_formatD : DGood formatD := by
  unfold formatD
  repeat
    first
    | exact dgood_readU8
    | exact dgood_readU16
    | exact dgood_readU32
    | exact dgood_pure _
    | exact dgood_skipBytes _
    | exact dgood_readBytes _
    | apply dgood_repeatD
    | apply dgood_bind
    | intro _

lemma dgood_visualtypeD : DGood visualtypeD := by
  unfold visualtypeD
  repeat
    first
    | exact dgood_readU8
    | exact dgood_readU16
    | exact dgood_readU32
    | exact dgood_pure _
    | exact dgood_skipBytes _
    | exact dgood_readBytes _
    | apply dgood_repeatD
    | apply dgood_bind
    | intro _

lemma dgood_depthD : DGood depthD := by
  unfold depthD
  repeat
    first
    | exact dgood_readU8
    | exact dgood_readU16
    | exact dgood_readU32
    | exact dgood_pure _
    | exact dgood_skipBytes _
    | exact dgood_visualtypeD
    | apply dgood_repeatD
    | apply dgood_bind
    | intro _

lemma dgood_screenD : DGood screenD := by
  unfold screenD
  repeat
    first
    | exact dgood_readU8
    | exact dgood_readU16
    | exact dgood_readU32
    | exact dgood_pure _
    | exact dgood_skipBytes _
    | exact dgood_depthD
    | apply dgood_repeatD
    | apply dgood_bind
    | intro _

lemma dgood_setupD : DGood setupD := by
  unfold setupD
  repeat
    first
    | exact dgood_readU8
    | exact dgood_readU16
    | exact dgood_readU32
    | exact dgood_pure _
    | exact dgood_skipBytes _
    | exact dgood_readBytes _
    | exact dgood_screenD
    | exact dgood_formatD
    | apply dgood_repeatD
    | apply dgood_bind
    | intro _

lemma sortedAsc_tail {x : SequenceNumber} {xs : List SequenceNumber}
    (h : sortedAsc (x :: xs) = true) : sortedAsc xs = true := by
  cases xs with
  | nil => rfl
  | cons y ys =>
    unfold sortedAsc at h
    exact (Bool.and_eq_true_iff.mp h).2

lemma listMin_sorted {x : SequenceNumber} {xs : List SequenceNumber}
    (h : sortedAsc (x :: xs) = true) : listMin (x :: xs) = some x := by
  induction xs generalizing x with
  | nil => rfl
  | cons y ys ih =>
    unfold sortedAsc at h
    obtain ⟨hxy, hs⟩ := Bool.and_eq_true_iff.mp h
    unfold listMin
    rw [ih hs]
    simp only [Option.some.injEq]
    exact min_eq_left (of_decide_eq_true hxy)

lemma getScan_eq_specScan (poll : PollReply) :
    ∀ (l : List SequenceNumber), sortedAsc l = true →
      ∀ fuel, l.length ≤ fuel →
        specScan (specProbeOf poll) fuel l = getScan poll l := by
  intro l
  induction l with
  | nil =>
    intro _ fuel _
    cases fuel <;> simp [specScan, getScan, listMin]
  | cons s rest ih =>
    intro hsort fuel hfuel
    cases fuel with
    | zero => simp at hfuel
    | succ k =>
      have hrest : rest.length ≤ k := by
        simp only [List.length_cons] at hfuel; omega
      have hsrest : sortedAsc rest = true := sortedAsc_tail hsort
      unfold specScan getScan
      rw [listMin_sorted hsort]
      simp only
      unfold specProbeOf
      cases hps : poll s with
      | error u => simp
      | ok result =>
        cases result with
        | none =>
          simp only [List.erase_cons_head]
          exact ih hsrest k hrest
        | some buf =>
          cases htf : GenericError.tryFrom buf with
          | ok e => simp only [htf, List.erase_cons_head]
          | error pe =>
            simp only [htf, List.erase_cons_head]
            exact ih hsrest k hrest

lemma heapPush_perm (s : SequenceNumber) :
    ∀ l : List SequenceNumber, List.Perm (heapPush s l) (s :: l) := by
  intro l
  induction l with
  | nil => rfl
  | cons x xs ih =>
    unfold heapPush
    by_cases hs : s ≤ x
    · rw [if_pos hs]
    · rw [if_neg hs]
      exact List.Perm.trans (List.Perm.cons x ih) (List.Perm.swap s x xs)

lemma connection_error_from_c_error_isSome {code : Int} (h : code ≠ 0) :
    ∃ c, connection_error_from_c_error code = some c := by
  unfold connection_error_from_c_error
  rw [if_neg h]
  exact ⟨_, rfl⟩

set_option maxRecDepth 10000 in
/-- Validation against the repository's own test vector: the modelled
handshake decoder accepts the test's 128-byte setup and yields exactly
the field values the test asserts, consuming all 128 bytes. -/
lemma setup_default_vector_decodes :
    setupRun defaultSetupBytes = .ok (defaultSetupValue, 128) := by decide

set_option maxRecDepth 10000 in
/-- Validation: `parse_setup` on the test vector (length field 32, total
region 136 bytes of which the decoder uses 128) returns the expected
`Setup`. -/
lemma parse_setup_default_vector :
    parse_setup (defaultSetupBytes ++ List.replicate 8 0) =
      .ok defaultSetupValue := by decide

/-- Validation of the spec section 8 scenario: with only sequence 2
outstanding after a discard and the transport resolving it to an error,
the first event-fetch consultation returns that error and removes the
sequence, and a second consultation reports no pending error. -/
lemma pending_error_scenario :
    PendingErrors.get pollScenario ⟨[2], []⟩ =
      (⟨[], []⟩, some ⟨List.replicate 32 0⟩) ∧
    PendingErrors.get pollScenario ⟨[], []⟩ = (⟨[], []⟩, none) := by decide

/-- C1: `PendingErrors::get` follows the specified reconciliation
algorithm: with the in-flight min-heap modelled as an ascending sorted
list (its heap invariant), `get` computes exactly what the spec's
`get_next_pending_error` prescribes — pop the discovered-errors FIFO if
non-empty, otherwise probe outstanding sequences smallest-first, stopping
on "not yet available", dropping resolved replies/voids, and removing and
returning the first discovered error. -/
theorem pending_errors_get_follows_spec :
    ∀ (poll : PollReply) (st : PendingErrorsInner),
      sortedAsc st.in_flight = true →
      PendingErrors.get poll st = specGetNextPendingError (specProbeOf poll) st := by
  intro poll st hsort
  obtain ⟨fl, pending⟩ := st
  cases pending with
  | cons e es => rfl
  | nil =>
    unfold PendingErrors.get specGetNextPendingError
    simp only
    rw [getScan_eq_specScan poll fl hsort fl.length (le_refl _)]

theorem pending_errors_get_follows_spec_witness :
    sortedAsc [2, 5] = true ∧
      PendingErrors.get pollNotYet ⟨[2, 5], [errAllZero]⟩ =
        specGetNextPendingError (specProbeOf pollNotYet) ⟨[2, 5], [errAllZero]⟩ :=
  ⟨by decide, pending_errors_get_follows_spec pollNotYet ⟨[2, 5], [errAllZero]⟩ (by decide)⟩

/-- C2: when `wait_for_reply_or_error` resolves a sequence to a protocol
(X11) error, `wait_for_reply` appends that error to the pending-error
FIFO (at the tail, preserving discovery order) and returns `Ok(None)`;
the error stays in the queue that every event fetch drains, so it is not
dropped. -/
theorem wait_for_reply_queues_protocol_error :
    ∀ (reply error : Option Buffer) (code : Int) (st : PendingErrorsInner)
      (e : GenericError),
      wait_for_reply_or_error reply error code = some (.error (.x11Error e)) →
      wait_for_reply reply error code st =
        (⟨st.in_flight, st.pending ++ [e]⟩, some (.ok none)) ∧
      e ∈ (wait_for_reply reply error code st).1.pending := by
  intro reply error code st e h
  unfold wait_for_reply
  rw [h]
  simp [PendingErrors.append_error]

theorem wait_for_reply_queues_protocol_error_witness :
    wait_for_reply none (some (List.replicate 32 0)) 0 ⟨[], []⟩ =
      (⟨[], [] ++ [errAllZero]⟩, some (.ok none)) ∧
    errAllZero ∈ (wait_for_reply none (some (List.replicate 32 0)) 0 ⟨[], []⟩).1.pending :=
  wait_for_reply_queues_protocol_error none (some (List.replicate 32 0)) 0
    ⟨[], []⟩ errAllZero (by decide)

/-- C3: both event-fetch operations consult the pending-error reconciler
first: whenever `PendingErrors::get` yields an error, `wait_for_event`
and `poll_for_event` return that error converted to a generic event, with
a result independent of whatever the transport would have returned (the
transport parameters are universally quantified and do not occur in the
result), so no event is fetched before the pending error is delivered. -/
theorem event_fetch_consults_pending_errors_first :
    ∀ (poll : PollReply) (st : PendingErrorsInner) (event : Option Buffer)
      (code : Int) (st2 : PendingErrorsInner) (e : GenericError),
      PendingErrors.get poll st = (st2, some e) →
      wait_for_event poll st event code = (st2, some (.ok e.toEvent)) ∧
      poll_for_event poll st event code = (st2, some (.ok (some e.toEvent))) := by
  intro poll st event code st2 e h
  unfold wait_for_event poll_for_event
  rw [h]
  exact ⟨rfl, rfl⟩

theorem event_fetch_consults_pending_errors_first_witness :
    wait_for_event pollNotYet ⟨[], [errAllZero]⟩ none 7 =
      (⟨[], []⟩, some (.ok errAllZero.toEvent)) ∧
    poll_for_event pollNotYet ⟨[], [errAllZero]⟩ none 7 =
      (⟨[], []⟩, some (.ok (some errAllZero.toEvent))) :=
  event_fetch_consults_pending_errors_first pollNotYet ⟨[], [errAllZero]⟩
    none 7 ⟨[], []⟩ errAllZero (by decide)

/-- C4: the handshake decoder used by `parse_setup` is bounds-safe: a
successful decode never consumes more bytes than are available, and
truncating the region strictly below the bytes its declared counts and
lengths require makes the decode fail with a parse error instead of
reading out of bounds (every primitive read is bounds-checked, and the
decoder is a total function, so no input makes it crash). -/
theorem parse_setup_rejects_truncation :
    ∀ (d : List Nat) (s : Setup) (q : Nat), setupRun d = .ok (s, q) →
      q ≤ d.length ∧ ∀ m, m < q → isErr (setupTryFrom (d.take m)) = true := by
  intro d s q h
  constructor
  · exact (dgood_setupD.1 d 0 s q h).2 (Nat.zero_le _)
  · intro m hm
    have := dgood_setupD.2.2 d 0 s q m h (Nat.zero_le m) hm
    unfold setupTryFrom setupRun
    unfold setupRun at this
    cases h2 : setupD (d.take m) 0 with
    | error e => simp [isErr]
    | ok v =>
      rw [h2] at this
      simp [isErr] at this

theorem parse_setup_rejects_truncation_witness :
    isErr (setupTryFrom (minSetupBytes.take 39)) = true :=
  (parse_setup_rejects_truncation minSetupBytes minSetupValue 40 (by decide)).2
    39 (by decide)

/-- C5: evaluation of the `u16` total-length computation of `parse_setup`
at the failing input.  The length field value 16382 is a legal 16-bit
value, the exact total would be 16382 * 4 + 8 = 65536, but the code's
16-bit arithmetic wraps it to 0 (release mode; a debug build panics), so
the arithmetic is not exact for every possible 16-bit length value. -/
theorem setup_total_length_wraps :
    setup_total_length 16382 = 0 ∧
    16382 * 4 + 8 = 65536 ∧
    setup_total_length 16381 = 16381 * 4 + 8 := by decide

/-- C6: the connection-error classifier maps transport codes 1..7 to the
generic I/O failure, extension unsupported, insufficient memory,
request-length exceeded, display-string parse failure, invalid screen and
side-channel-passing-failed variants, returns the unknown variant only
for (nonzero) codes outside 1..7, and `send_request` returns a classified
connection error exactly when the transport reported a zero sequence
number. -/
theorem connection_error_classification :
    connection_error_from_c_error 1 = some .connectionError ∧
    connection_error_from_c_error 2 = some .unsupportedExtension ∧
    connection_error_from_c_error 3 = some .insufficientMemory ∧
    connection_error_from_c_error 4 = some .maximumRequestLengthExceeded ∧
    connection_error_from_c_error 5 = some .displayParsingError ∧
    connection_error_from_c_error 6 = some .invalidScreen ∧
    connection_error_from_c_error 7 = some .fdPassingFailed ∧
    (∀ code : Int, code ≠ 0 → ¬(1 ≤ code ∧ code ≤ 7) →
      connection_error_from_c_error code = some .unknownError) ∧
    (∀ (seqno : Nat) (code : Int), code ≠ 0 →
      ((∃ c, send_request_outcome seqno code = some (.error c)) ↔ seqno = 0)) := by
  refine ⟨by decide, by decide, by decide, by decide, by decide, by decide,
    by decide, ?_, ?_⟩
  · intro code h0 hrange
    have h1 : code ≠ 1 := by omega
    have h2 : code ≠ 2 := by omega
    have h3 : code ≠ 3 := by omega
    have h4 : code ≠ 4 := by omega
    have h5 : code ≠ 5 := by omega
    have h6 : code ≠ 6 := by omega
    have h7 : code ≠ 7 := by omega
    simp [connection_error_from_c_error, h0, h1, h2, h3, h4, h5, h6, h7]
  · intro seqno code hc
    constructor
    · rintro ⟨c, hcst⟩
      by_contra hs
      unfold send_request_outcome at hcst
      rw [if_neg hs] at hcst
      simp at hcst
    · intro hs
      obtain ⟨c, hcl⟩ := connection_error_from_c_error_isSome hc
      refine ⟨c, ?_⟩
      unfold send_request_outcome
      rw [if_pos hs, hcl]
      rfl

theorem connection_error_classification_witness :
    connection_error_from_c_error 99 = some .unknownError ∧
    ((∃ c, send_request_outcome 0 3 = some (.error c)) ↔ (0 : Nat) = 0) :=
  ⟨connection_error_classification.2.2.2.2.2.2.2.1 99 (by decide) (by decide),
   connection_error_classification.2.2.2.2.2.2.2.2 0 3 (by decide)⟩

/-- C7: under the transport invariant that a resolved sequence never
yields a reply and an error simultaneously, and with the connection in a
(classifiable, nonzero) state when consulted, `wait_for_reply_or_error`
never hits its internal assertion (`some` result, the both-present branch
is unreachable), returns exactly one of reply buffer / protocol error /
connection error, and in the neither-reply-nor-error case returns the
connection's own error state classified as a connection error. -/
theorem wait_for_reply_or_error_trichotomy :
    ∀ (reply error : Option Buffer) (code : Int),
      ¬(reply.isSome = true ∧ error.isSome = true) → code ≠ 0 →
      (wait_for_reply_or_error reply error code).isSome = true ∧
      exactlyOneOf3 (isReplyOutcome (wait_for_reply_or_error reply error code))
        (isX11ErrorOutcome (wait_for_reply_or_error reply error code))
        (isConnErrorOutcome (wait_for_reply_or_error reply error code)) = true ∧
      (reply = none → error = none →
        ∃ c, connection_error_from_c_error code = some c ∧
          wait_for_reply_or_error reply error code =
            some (.error (.connectionError c))) := by
  intro reply error code hinv hc
  obtain ⟨c, hcl⟩ := connection_error_from_c_error_isSome hc
  cases reply with
  | some r =>
    cases error with
    | some e => exact absurd ⟨rfl, rfl⟩ hinv
    | none =>
      refine ⟨?_, ?_, ?_⟩ <;>
        simp [wait_for_reply_or_error, isReplyOutcome, isX11ErrorOutcome,
          isConnErrorOutcome, exactlyOneOf3]
  | none =>
    cases error with
    | none =>
      refine ⟨?_, ?_, ?_⟩ <;>
        simp [wait_for_reply_or_error, hcl, isReplyOutcome, isX11ErrorOutcome,
          isConnErrorOutcome, exactlyOneOf3]
    | some e =>
      cases htf : GenericError.tryFrom (wrap_error e) with
      | ok ge =>
        refine ⟨?_, ?_, ?_⟩ <;>
          simp [wait_for_reply_or_error, htf, isReplyOutcome, isX11ErrorOutcome,
            isConnErrorOutcome, exactlyOneOf3]
      | error pe =>
        refine ⟨?_, ?_, ?_⟩ <;>
          simp [wait_for_reply_or_error, htf, isReplyOutcome, isX11ErrorOutcome,
            isConnErrorOutcome, exactlyOneOf3]

theorem wait_for_reply_or_error_trichotomy_witness :
    (wait_for_reply_or_error none none 5).isSome = true ∧
    exactlyOneOf3 (isReplyOutcome (wait_for_reply_or_error none none 5))
      (isX11ErrorOutcome (wait_for_reply_or_error none none 5))
      (isConnErrorOutcome (wait_for_reply_or_error none none 5)) = true ∧
    ((none : Option Buffer) = none → (none : Option Buffer) = none →
      ∃ c, connection_error_from_c_error 5 = some c ∧
        wait_for_reply_or_error none none 5 =
          some (.error (.connectionError c))) :=
  wait_for_reply_or_error_trichotomy none none 5 (by decide) (by decide)

/-- C8: the three public send operations pass flag pairs
(has_reply, reply_has_fds) that satisfy the precondition
"replies carry a side channel implies a reply is expected": the internal
assertion in `send_request` never fires (the flag computation succeeds),
and the only caller setting reply_has_fds also sets has_reply. -/
theorem send_precondition_holds :
    (send_request_flags send_request_with_reply_args.1
      send_request_with_reply_args.2).isSome = true ∧
    (send_request_flags send_request_with_reply_with_fds_args.1
      send_request_with_reply_with_fds_args.2).isSome = true ∧
    (send_request_flags send_request_without_reply_args.1
      send_request_without_reply_args.2).isSome = true ∧
    (send_request_with_reply_with_fds_args.1 = true) ∧
    (send_request_with_reply_args.2 = false) ∧
    (send_request_without_reply_args.2 = false) := by decide

/-- C9: `discard_reply` in discard-everything mode delegates to the
transport (the flag records the `xcb_discard_reply64` call) and leaves
the reconciler state unchanged; in discard-reply-but-keep-error mode it
does not call the transport, leaves the discovered-error FIFO unchanged,
and adds exactly the given sequence number to the outstanding set. -/
theorem discard_reply_modes :
    ∀ (st : PendingErrorsInner) (sequence : SequenceNumber),
      discard_reply st sequence .discardReplyAndError = (st, true) ∧
      (discard_reply st sequence .discardReply).2 = false ∧
      (discard_reply st sequence .discardReply).1.pending = st.pending ∧
      List.Perm (discard_reply st sequence .discardReply).1.in_flight
        (sequence :: st.in_flight) := by
  intro st sequence
  refine ⟨rfl, rfl, rfl, ?_⟩
  exact heapPush_perm sequence st.in_flight

/-- C10: `poll_for_event` answers `Ok(None)` exactly when there is no
pending reconciler error, the transport yielded no event, and the
connection-error code is zero (healthy); and when there is no pending
error and no event but the code is nonzero, it returns that code
classified as a connection error, so "no event" is always distinguishable
from a broken connection. -/
theorem poll_for_event_none_iff_healthy :
    ∀ (poll : PollReply) (st : PendingErrorsInner) (event : Option Buffer)
      (code : Int),
      ((poll_for_event poll st event code).2 = some (.ok none) ↔
        ((PendingErrors.get poll st).2 = none ∧ event = none ∧ code = 0)) ∧
      ((PendingErrors.get poll st).2 = none → event = none → code ≠ 0 →
        ∃ c, connection_error_from_c_error code = some c ∧
          (poll_for_event poll st event code).2 = some (.error c)) := by
  intro poll st event code
  unfold poll_for_event
  cases hget : PendingErrors.get poll st with
  | mk st2 r =>
    cases r with
    | some e =>
      refine ⟨⟨fun h => ?_, fun h => absurd h.1 (by simp)⟩, fun h => absurd h (by simp)⟩
      simp at h
    | none =>
      cases event with
      | none =>
        by_cases hc : code = 0
        · subst hc
          exact ⟨⟨fun _ => ⟨rfl, rfl, rfl⟩, fun _ => rfl⟩,
            fun _ _ hcc => absurd rfl hcc⟩
        · obtain ⟨c, hcl⟩ := connection_error_from_c_error_isSome hc
          refine ⟨⟨fun h => ?_, fun h => absurd h.2.2 hc⟩,
            fun _ _ _ => ⟨c, hcl, ?_⟩⟩
          · simp [hc, hcl] at h
          · simp [hc, hcl]
      | some buf =>
        cases htf : GenericEvent.tryFrom (buf.take 32) with
        | error pe =>
          refine ⟨⟨fun h => ?_, fun h => absurd h.2.1 (by simp)⟩,
            fun _ hev _ => absurd hev (by simp)⟩
          simp [htf] at h
        | ok ev =>
          by_cases h35 : ev.responseType = 35
          · refine ⟨⟨fun h => ?_, fun h => absurd h.2.1 (by simp)⟩,
              fun _ hev _ => absurd hev (by simp)⟩
            simp [htf, h35] at h
          · refine ⟨⟨fun h => ?_, fun h => absurd h.2.1 (by simp)⟩,
              fun _ hev _ => absurd hev (by simp)⟩
            simp [htf, h35] at h

theorem poll_for_event_none_iff_healthy_witness :
    ∃ c, connection_error_from_c_error 2 = some c ∧
      (poll_for_event pollNotYet ⟨[], []⟩ none 2).2 = some (.error c) :=
  (poll_for_event_none_iff_healthy pollNotYet ⟨[], []⟩ none 2).2
    (by decide) rfl (by decide)
